import Mathlib

/-!
Shallow embedding of src/src/memory_usage.cpp (ffpython).

The C++ source is a single exported function:

  int get_memory_usage(DWORD pid) {
      PROCESS_MEMORY_COUNTERS pmc;
      HANDLE process = OpenProcess(
          PROCESS_QUERY_INFORMATION | PROCESS_VM_READ, FALSE, pid);
      if (process == NULL) return -1;
      int memory_usage;
      if (GetProcessMemoryInfo(process, &pmc, sizeof(pmc)))
          memory_usage = pmc.WorkingSetSize;
      else
          memory_usage = -1;
      CloseHandle(process);
      return memory_usage;
  }

The two operating-system calls are modelled as an oracle (OSEnv) giving the
response of OpenProcess for each pid and of GetProcessMemoryInfo for each
handle.  The function is embedded as a pure function of the pid and the
oracle, returning both the C int result and the trace of OS calls performed,
in order.  DWORD pids and HANDLE values are modelled as Nat; the SIZE_T
field WorkingSetSize is a Nat; the C assignment of a SIZE_T into an int is
the reduction modulo 2^32 reinterpreted as a signed two's-complement 32-bit
value (MSVC x64: SIZE_T is unsigned 64-bit, int is signed 32-bit).
-/

/-- The PROCESS_MEMORY_COUNTERS structure, restricted to the one field the
source reads.  WorkingSetSize is a SIZE_T (unsigned) byte count. -/
structure PROCESS_MEMORY_COUNTERS where
  WorkingSetSize : Nat
  deriving Repr, DecidableEq

/-- Oracle for the operating system: the response of OpenProcess for each
pid (none models a NULL handle, some h a granted handle), and the response
of GetProcessMemoryInfo for each handle (none models FALSE, some pmc a
filled-in counters structure). -/
structure OSEnv where
  OpenProcess : Nat → Option Nat
  GetProcessMemoryInfo : Nat → Option PROCESS_MEMORY_COUNTERS

/-- One OS call performed by the function, recorded in program order. -/
inductive OSEvent where
  | OpenProcessCall (pid : Nat) : OSEvent
  | GetProcessMemoryInfoCall (handle : Nat) : OSEvent
  | CloseHandleCall (handle : Nat) : OSEvent
  deriving Repr, DecidableEq

/-- Conversion of an unsigned SIZE_T value to a C int: reduce modulo 2^32
and reinterpret as signed two's complement (the C++ assignment
memory_usage = pmc.WorkingSetSize with int memory_usage). -/
def intOfSizeT (n : Nat) : Int :=
  let m : Nat := n % 2 ^ 32
  if m < 2 ^ 31 then (m : Int) else (m : Int) - 2 ^ 32

/-- Outcome of one invocation: the returned C int and the ordered trace of
OS calls the invocation performed before returning. -/
structure RunResult where
  result : Int
  trace : List OSEvent
  deriving Repr, DecidableEq

/-- Embedding of get_memory_usage: open the process, return -1 at once if
the OS declines the handle; otherwise query the memory counters, take
WorkingSetSize (narrowed to int) on success and -1 on failure, close the
handle, and return. -/
def get_memory_usage (pid : Nat) (os : OSEnv) : RunResult :=
  match os.OpenProcess pid with
  | none =>
      { result := -1, trace := [.OpenProcessCall pid] }
  | some process =>
      match os.GetProcessMemoryInfo process with
      | some pmc =>
          { result := intOfSizeT pmc.WorkingSetSize
            trace := [.OpenProcessCall pid, .GetProcessMemoryInfoCall process,
                      .CloseHandleCall process] }
      | none =>
          { result := -1
            trace := [.OpenProcessCall pid, .GetProcessMemoryInfoCall process,
                      .CloseHandleCall process] }

/-- Recognizer for OpenProcess events in a trace. -/
def OSEvent.isOpen : OSEvent → Bool
  | .OpenProcessCall _ => true
  | _ => false

/-- Recognizer for GetProcessMemoryInfo events in a trace. -/
def OSEvent.isQuery : OSEvent → Bool
  | .GetProcessMemoryInfoCall _ => true
  | _ => false

/-- Recognizer for CloseHandle events in a trace. -/
def OSEvent.isClose : OSEvent → Bool
  | .CloseHandleCall _ => true
  | _ => false

/-- Concrete oracle granting handle 7 for every pid and reporting a fixed
working-set size, used to evaluate the code at concrete inputs. -/
def envWithWS (ws : Nat) : OSEnv :=
  { OpenProcess := fun _ => some 7
    GetProcessMemoryInfo := fun _ => some ⟨ws⟩ }

/-- Concrete oracle that refuses every handle. -/
def envRefuse : OSEnv :=
  { OpenProcess := fun _ => none
    GetProcessMemoryInfo := fun _ => none }

/-- Concrete oracle that grants handle 7 but fails the memory query. -/
def envQueryFail : OSEnv :=
  { OpenProcess := fun _ => some 7
    GetProcessMemoryInfo := fun _ => none }

/-- Concrete oracle that agrees with envWithWS 5 on pid 0 and handle 7 but
differs everywhere else, used to witness that the result depends only on the
two OS-call responses actually consulted. -/
def envAlt : OSEnv :=
  { OpenProcess := fun p => if p = 0 then some 7 else none
    GetProcessMemoryInfo := fun h => if h = 7 then some ⟨5⟩ else none }

/-- Helper: intOfSizeT is congruent to its argument modulo 2^32. -/
theorem intOfSizeT_emod (n : Nat) : intOfSizeT n % 2 ^ 32 = (n : Int) % 2 ^ 32 := by
  dsimp only [intOfSizeT]
  split <;> omega

/-- Helper: intOfSizeT is at least -2^31. -/
theorem intOfSizeT_lb (n : Nat) : -(2 ^ 31) ≤ intOfSizeT n := by
  dsimp only [intOfSizeT]
  split <;> omega

/-- Helper: intOfSizeT is below 2^31. -/
theorem intOfSizeT_ub (n : Nat) : intOfSizeT n < 2 ^ 31 := by
  dsimp only [intOfSizeT]
  split <;> omega

/-- Helper: on the success path the returned result is the narrowed
WorkingSetSize. -/
theorem get_memory_usage_success_result (pid : Nat) (os : OSEnv) (p : Nat)
    (pmc : PROCESS_MEMORY_COUNTERS)
    (hopen : os.OpenProcess pid = some p)
    (hq : os.GetProcessMemoryInfo p = some pmc) :
    (get_memory_usage pid os).result = intOfSizeT pmc.WorkingSetSize := by
  simp [get_memory_usage, hopen, hq]

/-- C1: the claim states that whenever the handle is granted and the memory
query succeeds the returned value is >= 0 and is the working-set size in
bytes.  The code narrows the SIZE_T counter into a C int, so an OS-reported
working-set size of 2^31 bytes (a 2 GiB process) makes a successful
invocation return -2^31, which is negative and is not the working-set size. -/
theorem get_memory_usage_C1_failing_eval :
    (envWithWS (2 ^ 31)).OpenProcess 1 = some 7 ∧
    (envWithWS (2 ^ 31)).GetProcessMemoryInfo 7 = some ⟨2 ^ 31⟩ ∧
    (get_memory_usage 1 (envWithWS (2 ^ 31))).result = -(2 ^ 31) := by
  refine ⟨rfl, rfl, ?_⟩
  decide

/-- C2: the claim states that -1 is returned if and only if one of the two
failure cases occurs.  The forward direction holds, but an OS-reported
working-set size of 2^32 - 1 bytes makes a fully successful invocation
(handle granted, query succeeded) return -1 as well, so -1 does not imply
failure. -/
theorem get_memory_usage_C2_failing_eval :
    (envWithWS (2 ^ 32 - 1)).OpenProcess 1 = some 7 ∧
    (envWithWS (2 ^ 32 - 1)).GetProcessMemoryInfo 7 = some ⟨2 ^ 32 - 1⟩ ∧
    (get_memory_usage 1 (envWithWS (2 ^ 32 - 1))).result = -1 := by
  refine ⟨rfl, rfl, ?_⟩
  decide

/-- C3: the claim states that on a successful invocation the returned value
equals the working-set-size counter in bytes.  An OS-reported working-set
size of 2^32 + 5 bytes makes a successful invocation return 5, which is not
the counter value. -/
theorem get_memory_usage_C3_failing_eval :
    (envWithWS (2 ^ 32 + 5)).OpenProcess 1 = some 7 ∧
    (envWithWS (2 ^ 32 + 5)).GetProcessMemoryInfo 7 = some ⟨2 ^ 32 + 5⟩ ∧
    (get_memory_usage 1 (envWithWS (2 ^ 32 + 5))).result = 5 ∧
    (get_memory_usage 1 (envWithWS (2 ^ 32 + 5))).result ≠ ((2 ^ 32 + 5 : Nat) : Int) := by
  refine ⟨rfl, rfl, ?_, ?_⟩ <;> decide

/-- C4: if the OS declines to grant a handle, the invocation returns -1 at
once and its trace is the single OpenProcess call: the memory query is never
attempted and no CloseHandle occurs on that path. -/
theorem get_memory_usage_open_refused (pid : Nat) (os : OSEnv)
    (hopen : os.OpenProcess pid = none) :
    get_memory_usage pid os = { result := -1, trace := [.OpenProcessCall pid] } := by
  simp [get_memory_usage, hopen]

/-- Witness for C4 at pid 0 under the refusing oracle. -/
theorem get_memory_usage_open_refused_witness :
    envRefuse.OpenProcess 0 = none ∧
    get_memory_usage 0 envRefuse = { result := -1, trace := [.OpenProcessCall 0] } :=
  ⟨rfl, get_memory_usage_open_refused 0 envRefuse rfl⟩

/-- C5: on every path on which a handle was acquired, success and
memory-query failure alike, the trace records exactly one CloseHandle call
for that handle before the function returns. -/
theorem get_memory_usage_closes_handle (pid : Nat) (os : OSEnv) (p : Nat)
    (hopen : os.OpenProcess pid = some p) :
    (get_memory_usage pid os).trace.count (.CloseHandleCall p) = 1 := by
  rcases hq : os.GetProcessMemoryInfo p with _ | pmc <;>
    simp [get_memory_usage, hopen, hq, List.count_cons, List.count_nil]

/-- Witness for C5: a granted handle is closed exactly once, both when the
query succeeds and when it fails. -/
theorem get_memory_usage_closes_handle_witness :
    (envWithWS 100).OpenProcess 3 = some 7 ∧
    (get_memory_usage 3 (envWithWS 100)).trace.count (.CloseHandleCall 7) = 1 ∧
    (get_memory_usage 3 envQueryFail).trace.count (.CloseHandleCall 7) = 1 :=
  ⟨rfl, get_memory_usage_closes_handle 3 (envWithWS 100) 7 rfl,
    get_memory_usage_closes_handle 3 envQueryFail 7 rfl⟩

/-- C6: on a successful query the returned value is the SIZE_T working-set
size reduced modulo 2^32 and reinterpreted as a signed 32-bit int: it is
congruent to the counter modulo 2^32 and lies in the interval from -2^31 to
2^31 - 1; in particular it is negative for counters in the interval from
2^31 to 2^32 - 1, and differs from the true byte count for counters of at
least 2^32. -/
theorem get_memory_usage_int32_truncation (pid : Nat) (os : OSEnv) (p : Nat)
    (pmc : PROCESS_MEMORY_COUNTERS)
    (hopen : os.OpenProcess pid = some p)
    (hq : os.GetProcessMemoryInfo p = some pmc) :
    ((get_memory_usage pid os).result % 2 ^ 32 = (pmc.WorkingSetSize : Int) % 2 ^ 32 ∧
      -(2 ^ 31) ≤ (get_memory_usage pid os).result ∧
      (get_memory_usage pid os).result < 2 ^ 31) ∧
    (2 ^ 31 ≤ pmc.WorkingSetSize → pmc.WorkingSetSize < 2 ^ 32 →
      (get_memory_usage pid os).result < 0) ∧
    (2 ^ 32 ≤ pmc.WorkingSetSize →
      (get_memory_usage pid os).result ≠ (pmc.WorkingSetSize : Int)) := by
  rw [get_memory_usage_success_result pid os p pmc hopen hq]
  refine ⟨⟨intOfSizeT_emod _, intOfSizeT_lb _, intOfSizeT_ub _⟩, ?_, ?_⟩
  · intro h1 h2
    have := intOfSizeT_emod pmc.WorkingSetSize
    have := intOfSizeT_ub pmc.WorkingSetSize
    omega
  · intro h1
    have := intOfSizeT_ub pmc.WorkingSetSize
    omega

/-- Witness for C6 with an OS-reported working-set size of 3 * 2^31 bytes:
the returned value is congruent to it modulo 2^32, lies in the signed 32-bit
range, is negative, and differs from the true byte count. -/
theorem get_memory_usage_int32_truncation_witness :
    (envWithWS (3 * 2 ^ 31)).OpenProcess 1 = some 7 ∧
    (((get_memory_usage 1 (envWithWS (3 * 2 ^ 31))).result % 2 ^ 32 =
        ((3 * 2 ^ 31 : Nat) : Int) % 2 ^ 32 ∧
      -(2 ^ 31) ≤ (get_memory_usage 1 (envWithWS (3 * 2 ^ 31))).result ∧
      (get_memory_usage 1 (envWithWS (3 * 2 ^ 31))).result < 2 ^ 31) ∧
    (2 ^ 31 ≤ 3 * 2 ^ 31 → 3 * 2 ^ 31 < 2 ^ 32 →
      (get_memory_usage 1 (envWithWS (3 * 2 ^ 31))).result < 0) ∧
    (2 ^ 32 ≤ 3 * 2 ^ 31 →
      (get_memory_usage 1 (envWithWS (3 * 2 ^ 31))).result ≠
        ((3 * 2 ^ 31 : Nat) : Int))) :=
  ⟨rfl, get_memory_usage_int32_truncation 1 (envWithWS (3 * 2 ^ 31)) 7 ⟨3 * 2 ^ 31⟩ rfl rfl⟩

/-- C7: for every pid and every combination of OS-call outcomes the function
returns an integer, always in the signed 32-bit range: no exception or
abrupt termination crosses the boundary (the embedding is a total function
into C int results). -/
theorem get_memory_usage_total (pid : Nat) (os : OSEnv) :
    -(2 ^ 31) ≤ (get_memory_usage pid os).result ∧
    (get_memory_usage pid os).result < 2 ^ 31 := by
  rcases hop : os.OpenProcess pid with _ | p
  · simp [get_memory_usage, hop]
  · rcases hq : os.GetProcessMemoryInfo p with _ | pmc
    · simp [get_memory_usage, hop, hq]
    · simp only [get_memory_usage, hop, hq]
      exact ⟨intOfSizeT_lb _, intOfSizeT_ub _⟩

/-- C8: no retries: every invocation performs the OpenProcess call exactly
once, and the GetProcessMemoryInfo call exactly once when a handle is
granted and zero times when it is refused. -/
theorem get_memory_usage_no_retries (pid : Nat) (os : OSEnv) :
    (get_memory_usage pid os).trace.countP (fun e => e.isOpen) = 1 ∧
    (get_memory_usage pid os).trace.countP (fun e => e.isQuery) =
      (if (os.OpenProcess pid).isSome then 1 else 0) := by
  rcases hop : os.OpenProcess pid with _ | p
  · simp [get_memory_usage, hop, List.countP_cons, List.countP_nil,
      OSEvent.isOpen, OSEvent.isQuery]
  · rcases hq : os.GetProcessMemoryInfo p with _ | pmc <;>
      simp [get_memory_usage, hop, hq, List.countP_cons, List.countP_nil,
        OSEvent.isOpen, OSEvent.isQuery]

/-- C9: the result is a pure function of the pid and the two OS-call
responses: two oracles that give the same OpenProcess answer for the pid and
the same GetProcessMemoryInfo answer for the granted handle yield identical
invocation outcomes, whatever they answer elsewhere. -/
theorem get_memory_usage_deterministic (pid : Nat) (os₁ os₂ : OSEnv)
    (hopen : os₁.OpenProcess pid = os₂.OpenProcess pid)
    (hq : ∀ p, os₁.OpenProcess pid = some p →
      os₁.GetProcessMemoryInfo p = os₂.GetProcessMemoryInfo p) :
    get_memory_usage pid os₁ = get_memory_usage pid os₂ := by
  rcases hop : os₁.OpenProcess pid with _ | p
  · have hop₂ : os₂.OpenProcess pid = none := hopen.symm.trans hop
    simp [get_memory_usage, hop, hop₂]
  · have hop₂ : os₂.OpenProcess pid = some p := hopen.symm.trans hop
    have hq₂ := hq p hop
    simp only [get_memory_usage, hop, hop₂, hq₂]

/-- Witness for C9: the all-granting oracle reporting 5 bytes and the oracle
that answers only for pid 0 and handle 7 agree on the consulted responses,
so the invocations coincide. -/
theorem get_memory_usage_deterministic_witness :
    get_memory_usage 0 (envWithWS 5) = get_memory_usage 0 envAlt :=
  get_memory_usage_deterministic 0 (envWithWS 5) envAlt rfl
    (fun p hp => by
      have h7 : p = 7 := (Option.some.inj hp).symm
      subst h7
      rfl)

/-- C10: the pid undergoes no validation: every invocation starts by passing
the pid unchanged to OpenProcess, and the early-rejection path (a trace that
is the lone OpenProcess call) is taken exactly when the OS refuses the
handle. -/
theorem get_memory_usage_no_pid_validation (pid : Nat) (os : OSEnv) :
    (get_memory_usage pid os).trace.head? = some (.OpenProcessCall pid) ∧
    ((get_memory_usage pid os).trace = [.OpenProcessCall pid] ↔
      os.OpenProcess pid = none) := by
  rcases hop : os.OpenProcess pid with _ | p
  · simp [get_memory_usage, hop]
  · rcases hq : os.GetProcessMemoryInfo p with _ | pmc <;>
      simp [get_memory_usage, hop, hq]
